import Mathlib

/-!
# Verification of the document-registry specification against the code

This file gives a shallow embedding of the document registry of this
repository and proves/refutes the specification claims about it.

Two layers of the system are embedded, following the source:

* the on-chain registry — the Solidity contract `DocumentVerification`
  (struct `Document`, storage mappings `documents`, `ownerDocuments`,
  `issuerDocuments`, and the functions `storeDocument`, `verifyDocument`,
  `revokeDocument`, `transferDocument`, `getDocumentsByOwner`,
  `isDocumentActive`).  Solidity `require` failures revert the whole call,
  so every operation is embedded as a function returning
  `Except SolError (ContractState × Event)`; an `.error` result models a
  revert, i.e. the state is unchanged.  The `…Run` wrappers make that
  revert semantics explicit by returning the (unchanged) pre-state on error.

* the HTTP API layer — the Next.js route handlers in
  `src/app/api/documents/route.ts` (the document-creation `POST`) and the
  verification `POST` backed by MongoDB (`Document.findOne`,
  `incrementVerification` from `src/models/Document.ts`).  The MongoDB
  collection is embedded as a partial map from document hash to stored
  document; the verification handler takes an extra `saveOk : Bool`
  standing for whether the awaited `document.incrementVerification()`
  (a `save()`) succeeds — when it throws, control reaches the handler's
  `catch` block, which returns a 500 response.
-/

/-! ## On-chain model: the `DocumentVerification` Solidity contract -/

/-- The `Document` struct of the contract (part_001, lines 10–17):
`documentHash`, `metadata`, `owner`, `issuer`, `timestamp`, `isActive`.
Addresses are modelled as `Nat`, with `0` playing the role of
`address(0)`. -/
structure Document where
  documentHash : String
  metadata : String
  owner : Nat
  issuer : Nat
  timestamp : Nat
  isActive : Bool
deriving DecidableEq

/-- Field names of the on-chain `Document` struct, exactly as declared in
the source (part_001, lines 10–17).  The struct carries no other field —
in particular no version counter. -/
def documentFieldNames : List String :=
  ["documentHash", "metadata", "owner", "issuer", "timestamp", "isActive"]

/-- A Solidity `mapping(string => Document)` returns the all-default
struct for an absent key; this is that default value. -/
def defaultDocument : Document :=
  { documentHash := "", metadata := "", owner := 0, issuer := 0,
    timestamp := 0, isActive := false }

/-- Contract storage: `documents`, `ownerDocuments`, `issuerDocuments`
(part_001, lines 20–26), modelled as total maps with Solidity's default
values (`defaultDocument`, empty array). -/
structure ContractState where
  documents : String → Document
  ownerDocuments : Nat → List String
  issuerDocuments : Nat → List String

/-- Freshly deployed contract: every mapping slot holds its default. -/
def emptyContract : ContractState :=
  { documents := fun _ => defaultDocument
    ownerDocuments := fun _ => []
    issuerDocuments := fun _ => [] }

/-- The `require` failure messages of the contract, one constructor per
revert string. -/
inductive SolError where
  /-- `"Invalid hash length"` -/
  | invalidHashLength
  /-- `"Document already exists"` -/
  | documentAlreadyExists
  /-- `"Invalid owner address"` -/
  | invalidOwnerAddress
  /-- `"Document does not exist"` -/
  | documentDoesNotExist
  /-- `"Only issuer or owner can revoke"` -/
  | onlyIssuerOrOwnerCanRevoke
  /-- `"Document already revoked"` -/
  | documentAlreadyRevoked
  /-- `"Only owner can transfer"` -/
  | onlyOwnerCanTransfer
  /-- `"Invalid new owner address"` -/
  | invalidNewOwnerAddress
  /-- `"Cannot transfer revoked document"` -/
  | cannotTransferRevoked
deriving DecidableEq

/-- The events emitted by the contract (part_001, lines 29–47). -/
inductive Event where
  | documentStored (documentHash : String) (owner issuer timestamp : Nat)
  | documentRevoked (documentHash : String) (revokedBy timestamp : Nat)
  | documentTransferred (documentHash : String) (fromAddr toAddr timestamp : Nat)
deriving DecidableEq

/-- Boolean success test for an `Except` result. -/
def exceptIsOk {ε α : Type} : Except ε α → Bool
  | .ok _ => true
  | .error _ => false

/-- The error of an `Except` result, if any. -/
def exceptErr {ε α : Type} : Except ε α → Option ε
  | .ok _ => none
  | .error e => some e

/-- `storeDocument` (part_001, lines 55–77).  `sender` is `msg.sender`
and `time` is `block.timestamp`.  Checks, in source order:
`bytes(_documentHash).length == 64`, absence
(`bytes(documents[_documentHash].documentHash).length == 0`) and
`_owner != address(0)`; then stores the record with `isActive = true`,
pushes the hash on both index arrays and emits `DocumentStored`.
Solidity `bytes(s).length` is the UTF-8 byte length, hence
`String.utf8ByteSize`. -/
def storeDocument (s : ContractState) (hash meta : String)
    (owner sender time : Nat) : Except SolError (ContractState × Event) :=
  if hash.utf8ByteSize ≠ 64 then .error .invalidHashLength
  else if (s.documents hash).documentHash.utf8ByteSize ≠ 0 then
    .error .documentAlreadyExists
  else if owner = 0 then .error .invalidOwnerAddress
  else
    let doc : Document :=
      { documentHash := hash, metadata := meta, owner := owner,
        issuer := sender, timestamp := time, isActive := true }
    .ok
      ({ documents := fun h => if h = hash then doc else s.documents h
         ownerDocuments := fun a =>
           if a = owner then (s.ownerDocuments a).concat hash
           else s.ownerDocuments a
         issuerDocuments := fun a =>
           if a = sender then (s.issuerDocuments a).concat hash
           else s.issuerDocuments a },
       .documentStored hash owner sender time)

/-- Revert semantics of `storeDocument`: an `.error` result leaves the
contract storage untouched. -/
def storeDocumentRun (s : ContractState) (hash meta : String)
    (owner sender time : Nat) : ContractState :=
  match storeDocument s hash meta owner sender time with
  | .ok (s', _) => s'
  | .error _ => s

/-- `verifyDocument` (part_001, lines 89–115): a view returning
`(exists, metadata, owner, issuer, timestamp, isActive)`; for an absent
record it returns `(false, "", 0, 0, 0, false)`. -/
def verifyDocument (s : ContractState) (hash : String) :
    Bool × String × Nat × Nat × Nat × Bool :=
  let doc := s.documents hash
  if doc.documentHash.utf8ByteSize > 0 then
    (true, doc.metadata, doc.owner, doc.issuer, doc.timestamp, doc.isActive)
  else
    (false, "", 0, 0, 0, false)

/-- `revokeDocument` (part_001, lines 121–133): requires existence, that
the sender is issuer or owner, and that the record is still active; then
sets `isActive := false` and emits `DocumentRevoked`. -/
def revokeDocument (s : ContractState) (hash : String) (sender time : Nat) :
    Except SolError (ContractState × Event) :=
  let doc := s.documents hash
  if doc.documentHash.utf8ByteSize = 0 then .error .documentDoesNotExist
  else if sender ≠ doc.issuer ∧ sender ≠ doc.owner then
    .error .onlyIssuerOrOwnerCanRevoke
  else if doc.isActive = false then .error .documentAlreadyRevoked
  else
    .ok
      ({ s with documents := fun h =>
          if h = hash then { doc with isActive := false } else s.documents h },
       .documentRevoked hash sender time)

/-- Revert semantics of `revokeDocument`. -/
def revokeDocumentRun (s : ContractState) (hash : String) (sender time : Nat) :
    ContractState :=
  match revokeDocument s hash sender time with
  | .ok (s', _) => s'
  | .error _ => s

/-- The removal loop of `transferDocument` (part_001, lines 154–161):
scan the array for the first entry equal to `hash`, overwrite it with the
array's last element, pop the last slot and stop.  `none` means the loop
found no match (and then nothing is popped). -/
def swapRemoveFirstAux (last hash : String) : List String → Option (List String)
  | [] => none
  | x :: xs =>
    if x = hash then some (last :: xs)
    else (swapRemoveFirstAux last hash xs).map (fun ys => x :: ys)

/-- The full swap-remove of `transferDocument`: replace the first
occurrence of `hash` by the last element, then pop. -/
def swapRemoveFirst (l : List String) (hash : String) : List String :=
  match swapRemoveFirstAux (l.getLastD "") hash l with
  | none => l
  | some l' => l'.dropLast

/-- `transferDocument` (part_001, lines 140–164).  Checks, in source
order: existence, `msg.sender == doc.owner`,
`_newOwner != address(0)`, `doc.isActive`; then updates `doc.owner`,
pushes the hash on the new owner's array, swap-removes it from the old
owner's array, and emits `DocumentTransferred(hash, oldOwner, newOwner)`.
The push happens before the removal, exactly as in the source. -/
def transferDocument (s : ContractState) (hash : String)
    (newOwner sender time : Nat) : Except SolError (ContractState × Event) :=
  let doc := s.documents hash
  if doc.documentHash.utf8ByteSize = 0 then .error .documentDoesNotExist
  else if sender ≠ doc.owner then .error .onlyOwnerCanTransfer
  else if newOwner = 0 then .error .invalidNewOwnerAddress
  else if doc.isActive = false then .error .cannotTransferRevoked
  else
    let oldOwner := doc.owner
    let afterPush : Nat → List String := fun a =>
      if a = newOwner then (s.ownerDocuments a).concat hash
      else s.ownerDocuments a
    .ok
      ({ s with
         documents := fun h =>
           if h = hash then { doc with owner := newOwner } else s.documents h
         ownerDocuments := fun a =>
           if a = oldOwner then swapRemoveFirst (afterPush a) hash
           else afterPush a },
       .documentTransferred hash oldOwner newOwner time)

/-- Revert semantics of `transferDocument`. -/
def transferDocumentRun (s : ContractState) (hash : String)
    (newOwner sender time : Nat) : ContractState :=
  match transferDocument s hash newOwner sender time with
  | .ok (s', _) => s'
  | .error _ => s

/-- `getDocumentsByOwner` (part_001, lines 171–173). -/
def getDocumentsByOwner (s : ContractState) (owner : Nat) : List String :=
  s.ownerDocuments owner

/-- `getDocumentsByIssuer` (part_001, lines 180–182). -/
def getDocumentsByIssuer (s : ContractState) (issuer : Nat) : List String :=
  s.issuerDocuments issuer

/-- `isDocumentActive` (part_001, lines 202–204): reads
`documents[_documentHash].isActive`, the mapping default giving `false`
for an absent key. -/
def isDocumentActive (s : ContractState) (hash : String) : Bool :=
  (s.documents hash).isActive

/-- `getDocumentOwner` (part_001, lines 220–222). -/
def getDocumentOwner (s : ContractState) (hash : String) : Nat :=
  (s.documents hash).owner

/-! ### Concrete test inputs -/

/-- A 64-character lowercase hex digest (concrete test input). -/
def lowerHash : String :=
  "aaaaaaaaaaaaaaaaaaaaaaaaaaaaaaaaaaaaaaaaaaaaaaaaaaaaaaaaaaaaaaaa"

/-- The same digest spelled in uppercase (concrete test input). -/
def upperHash : String :=
  "AAAAAAAAAAAAAAAAAAAAAAAAAAAAAAAAAAAAAAAAAAAAAAAAAAAAAAAAAAAAAAAA"

/-- A 64-character string that is not hexadecimal (concrete test input). -/
def zHash : String :=
  "zzzzzzzzzzzzzzzzzzzzzzzzzzzzzzzzzzzzzzzzzzzzzzzzzzzzzzzzzzzzzzzz"

/-! ## API layer model: route handlers and the MongoDB document store -/

/-- One character of the character class `[a-f0-9]` under the regex flag
`i`: a decimal digit or a hex letter in either case. -/
def isHexCharCI (c : Char) : Bool :=
  c.isDigit || ('a' ≤ c && c ≤ 'f') || ('A' ≤ c && c ≤ 'F')

/-- The hash-format test `/^[a-f0-9]{64}$/i.test(hash)` used by
`isValidHash` (part_005, lines 54–56) and inlined in every route handler:
exactly 64 characters, all case-insensitive hex. -/
def isValidHash (hash : String) : Bool :=
  hash.length == 64 && hash.data.all isHexCharCI

/-- JavaScript `String.prototype.toLowerCase` (ASCII inputs), as applied
by the route handlers to addresses. -/
def jsToLowerCase (s : String) : String :=
  ⟨s.data.map Char.toLower⟩

/-- The MongoDB document created by the `POST` handler of
`src/app/api/documents/route.ts` and described by the mongoose schema in
`src/models/Document.ts`.  Only the fields the handlers under
verification read or write are carried; presentation-only fields
(description, category, file metadata, IPFS pointers, timestamps) are
elided. -/
structure MongoDoc where
  documentHash : String
  title : String
  issuer : String
  issuerAddress : String
  owner : String
  ownerAddress : String
  isActive : Bool
  verificationCount : Nat
deriving DecidableEq

/-- The MongoDB `documents` collection, keyed by `documentHash`
(`Document.findOne({ documentHash })`). -/
def MongoDb : Type := String → Option MongoDoc

/-- The body of a document-creation `POST` request
(`src/app/api/documents/route.ts`, lines 68–85); only the six fields the
handler requires to be truthy are carried (for a string, JavaScript
falsiness means the empty string). -/
structure CreateReq where
  documentHash : String
  title : String
  issuer : String
  issuerAddress : String
  owner : String
  ownerAddress : String
deriving DecidableEq

/-- Error responses of the creation `POST` handler, one constructor per
`NextResponse.json` error branch. -/
inductive CreateError where
  /-- 400: `"Missing required fields"` -/
  | missingRequiredFields
  /-- 400: `"Invalid document hash format"` -/
  | invalidDocumentHashFormat
  /-- 409: `"Document with this hash already exists"` -/
  | documentAlreadyExists
deriving DecidableEq

/-- Result of running the creation `POST` handler: the response, the
database afterwards, and how many database operations on the `documents`
collection were performed (`findOne` and `save` count one each) — the
spec's "spy/mock ledger receiving zero calls". -/
structure PostDocsResult where
  response : Except CreateError MongoDoc
  db : MongoDb
  dbCalls : Nat

/-- The document-creation `POST` handler
(`src/app/api/documents/route.ts`, lines 64–166): require the six fields
truthy, test the hash against `/^[a-f0-9]{64}$/i`, reject a duplicate
found by `findOne`, otherwise save a new document with
`isActive := true`, the addresses lowercased, the hash stored exactly as
received, and `verificationCount` left to its schema default `0`
(`src/models/Document.ts`, lines 123–127).  Audit logging does not touch
the `documents` collection and is elided. -/
def postDocuments (db : MongoDb) (r : CreateReq) : PostDocsResult :=
  if r.documentHash = "" ∨ r.title = "" ∨ r.issuer = "" ∨
      r.issuerAddress = "" ∨ r.owner = "" ∨ r.ownerAddress = "" then
    { response := .error .missingRequiredFields, db := db, dbCalls := 0 }
  else if isValidHash r.documentHash = false then
    { response := .error .invalidDocumentHashFormat, db := db, dbCalls := 0 }
  else
    match db r.documentHash with
    | some _ => { response := .error .documentAlreadyExists, db := db, dbCalls := 1 }
    | none =>
      let d : MongoDoc :=
        { documentHash := r.documentHash, title := r.title,
          issuer := r.issuer, issuerAddress := jsToLowerCase r.issuerAddress,
          owner := r.owner, ownerAddress := jsToLowerCase r.ownerAddress,
          isActive := true, verificationCount := 0 }
      { response := .ok d
        db := fun h => if h = r.documentHash then some d else db h
        dbCalls := 2 }

/-- The document payload attached to a verification result: the full
stored document in the valid case, or the reduced
`{ title, issuer, revokedAt }` object in the revoked case. -/
inductive DocInfo where
  | full (d : MongoDoc)
  | revokedInfo (title issuer : String)
deriving DecidableEq

/-- The `verificationResult` object built by the verification `POST`
handler: `isValid`, the `error` message if any, and the attached
document payload if any. -/
structure VerificationResult where
  isValid : Bool
  errorMsg : Option String
  document : Option DocInfo
deriving DecidableEq

/-- The HTTP response of the verification `POST` handler. -/
inductive VerifyResponse where
  /-- 200 with a structured verification result. -/
  | ok (v : VerificationResult)
  /-- 400 with the given error message. -/
  | badRequest (msg : String)
  /-- 500: `"Internal server error"`, produced by the handler's `catch`. -/
  | serverError
deriving DecidableEq

/-- The verification `POST` handler
(`src/app/api/documents/route.ts`, lines 421–546): require a hash, test
the format, `findOne`; an active document first has
`await document.incrementVerification()` (which bumps
`verificationCount` and `save`s — `src/models/Document.ts`,
lines 200–204) and is then reported `isValid := true` with the full
(already incremented) document; an inactive document is reported
`isValid := false`, `"Document has been revoked"`, with a reduced record
attached; an absent one `isValid := false`,
`"Document not found in blockchain"`, with no record.  `saveOk` says
whether the awaited `save()` succeeds; when it throws, the exception
reaches the handler's `catch`, which answers 500 and the database is
left unchanged.  Audit logging is elided (assumed to succeed). -/
def verifyPost (db : MongoDb) (documentHash : String) (saveOk : Bool) :
    VerifyResponse × MongoDb :=
  if documentHash = "" then (.badRequest "Document hash is required", db)
  else if isValidHash documentHash = false then
    (.badRequest "Invalid hash format", db)
  else
    match db documentHash with
    | some d =>
      if d.isActive then
        if saveOk then
          let d' : MongoDoc := { d with verificationCount := d.verificationCount + 1 }
          (.ok { isValid := true, errorMsg := none, document := some (.full d') },
           fun h => if h = documentHash then some d' else db h)
        else
          (.serverError, db)
      else
        (.ok { isValid := false, errorMsg := some "Document has been revoked",
               document := some (.revokedInfo d.title d.issuer) }, db)
    | none =>
      (.ok { isValid := false, errorMsg := some "Document not found in blockchain",
             document := none }, db)

/-- Contract state holding one document: `lowerHash`, owned by address
`5`, issued by address `2` at time `3` (concrete test state). -/
def baseState : ContractState :=
  storeDocumentRun emptyContract lowerHash "m" 5 2 3

/-- The same state after the issuer (address `2`) revoked the document
(concrete test state). -/
def revokedState : ContractState :=
  revokeDocumentRun baseState lowerHash 2 4

/-- A stored, active MongoDB document for `lowerHash` (concrete test
input). -/
def sampleDoc : MongoDoc :=
  { documentHash := lowerHash, title := "t", issuer := "i",
    issuerAddress := "0xaa", owner := "o", ownerAddress := "0xbb",
    isActive := true, verificationCount := 0 }

/-- A one-document database holding `sampleDoc` (concrete test input). -/
def sampleDb : MongoDb :=
  fun h => if h = lowerHash then some sampleDoc else none

/-- The same database with the document revoked (concrete test input). -/
def revokedDb : MongoDb :=
  fun h => if h = lowerHash then some { sampleDoc with isActive := false } else none

/-! ## Helper lemmas -/

/-- A string has UTF-8 byte length `0` exactly when it is empty, so the
contract's existence test `bytes(doc.documentHash).length == 0` tests
`documentHash = ""`. -/
theorem utf8ByteSize_eq_zero_iff (s : String) : s.utf8ByteSize = 0 ↔ s = "" := by
  cases s with
  | mk data => simp [String.utf8Len_eq_zero, String.ext_iff]

/-- Equation for `storeDocument` when all three `require`s pass. -/
theorem storeDocument_eq_ok
    (s : ContractState) (hash meta : String) (owner sender time : Nat)
    (h64 : hash.utf8ByteSize = 64)
    (hfresh : (s.documents hash).documentHash = "")
    (hown : owner ≠ 0) :
    storeDocument s hash meta owner sender time =
      .ok ({ documents := fun h =>
               if h = hash then
                 { documentHash := hash, metadata := meta, owner := owner,
                   issuer := sender, timestamp := time, isActive := true }
               else s.documents h
             ownerDocuments := fun a =>
               if a = owner then (s.ownerDocuments a).concat hash
               else s.ownerDocuments a
             issuerDocuments := fun a =>
               if a = sender then (s.issuerDocuments a).concat hash
               else s.issuerDocuments a },
           .documentStored hash owner sender time) := by
  have h0 : ¬ hash.utf8ByteSize ≠ 64 := by simp [h64]
  have h1 : ¬ (s.documents hash).documentHash.utf8ByteSize ≠ 0 := by
    simp [utf8ByteSize_eq_zero_iff, hfresh]
  simp only [storeDocument, if_neg h0, if_neg h1, if_neg hown]

/-- Equation for `storeDocument` when the fingerprint already has a
record (and has the right length, so the duplicate check is reached). -/
theorem storeDocument_eq_dup
    (s : ContractState) (hash meta : String) (owner sender time : Nat)
    (h64 : hash.utf8ByteSize = 64)
    (hex : (s.documents hash).documentHash ≠ "") :
    storeDocument s hash meta owner sender time = .error .documentAlreadyExists := by
  have h0 : ¬ hash.utf8ByteSize ≠ 64 := by simp [h64]
  have h1 : (s.documents hash).documentHash.utf8ByteSize ≠ 0 :=
    fun h => hex ((utf8ByteSize_eq_zero_iff _).mp h)
  simp only [storeDocument, if_neg h0, if_pos h1]

/-- Equation for `transferDocument` when all four `require`s pass. -/
theorem transferDocument_eq_ok
    (s : ContractState) (hash : String) (newOwner sender time : Nat)
    (hex : (s.documents hash).documentHash ≠ "")
    (hsend : sender = (s.documents hash).owner)
    (hnz : newOwner ≠ 0)
    (hact : (s.documents hash).isActive = true) :
    transferDocument s hash newOwner sender time =
      .ok ({ documents := fun h =>
               if h = hash then { s.documents hash with owner := newOwner }
               else s.documents h
             ownerDocuments := fun a =>
               if a = (s.documents hash).owner then
                 swapRemoveFirst
                   (if a = newOwner then (s.ownerDocuments a).concat hash
                    else s.ownerDocuments a) hash
               else
                 if a = newOwner then (s.ownerDocuments a).concat hash
                 else s.ownerDocuments a
             issuerDocuments := s.issuerDocuments },
           .documentTransferred hash (s.documents hash).owner newOwner time) := by
  have h1 : ¬ (s.documents hash).documentHash.utf8ByteSize = 0 :=
    fun h => hex ((utf8ByteSize_eq_zero_iff _).mp h)
  have h2 : ¬ sender ≠ (s.documents hash).owner := by simp [hsend]
  have h3 : ¬ newOwner = 0 := hnz
  have h4 : ¬ (s.documents hash).isActive = false := by simp [hact]
  simp only [transferDocument, if_neg h1, if_neg h2, if_neg h3, if_neg h4]

/-- The swap-remove loop body, applied at the first occurrence of the
sought hash: it replaces that occurrence by the supplied last element. -/
theorem swapRemoveFirstAux_first_occ (last h : String) (post : List String) :
    ∀ pre : List String, h ∉ pre →
      swapRemoveFirstAux last h (pre ++ h :: post) = some (pre ++ last :: post) := by
  intro pre
  induction pre with
  | nil => intro _; simp [swapRemoveFirstAux]
  | cons x xs ih =>
    intro hpre
    have hx : ¬ x = h := fun e => hpre (by simp [e])
    have hmem : h ∉ xs := fun m => hpre (by simp [m])
    simp only [List.cons_append, swapRemoveFirstAux, if_neg hx, List.append_eq,
      ih hmem, Option.map_some']

/-- If a hash occurs exactly once in an owner's array, the contract's
swap-remove deletes it: the hash is absent from the resulting array. -/
theorem notMem_swapRemoveFirst (h : String) (pre post : List String)
    (hpre : h ∉ pre) (hpost : h ∉ post) :
    h ∉ swapRemoveFirst (pre ++ h :: post) h := by
  rcases List.eq_nil_or_concat post with rfl | ⟨q, a, rfl⟩
  · have hlast : (pre ++ h :: []).getLastD "" = h := List.getLastD_concat "" h pre
    have haux := swapRemoveFirstAux_first_occ h h [] pre hpre
    unfold swapRemoveFirst
    rw [hlast, haux]
    show h ∉ (pre ++ h :: []).dropLast
    rw [List.dropLast_concat]
    exact hpre
  · rw [List.concat_eq_append] at hpost
    have hq : h ∉ q := fun m => hpost (by simp [m])
    have ha : ¬ h = a := fun e => hpost (by simp [e])
    have hlast : (pre ++ h :: (q.concat a)).getLastD "" = a := by
      rw [List.concat_eq_append,
        show pre ++ h :: (q ++ [a]) = (pre ++ h :: q) ++ [a] by simp,
        List.getLastD_concat]
    have haux := swapRemoveFirstAux_first_occ a h (q.concat a) pre hpre
    unfold swapRemoveFirst
    rw [hlast, haux]
    show h ∉ (pre ++ a :: (q.concat a)).dropLast
    rw [List.concat_eq_append,
      show pre ++ a :: (q ++ [a]) = (pre ++ a :: q) ++ [a] by simp,
      List.dropLast_concat]
    simp only [List.mem_append, List.mem_cons]
    push_neg
    exact ⟨hpre, ha, hq⟩

/-! ## The claims -/

/-- C1: at most one provenance record ever exists per fingerprint.  If a
record for `hash` already exists, a second `storeDocument` fails with the
duplicate error (`"Document already exists"`, the spec's
`DuplicateFingerprint`) and reverts, leaving the whole storage — in
particular the existing record — unchanged; the first `storeDocument`
for a fresh fingerprint (valid length, non-null owner) succeeds. -/
theorem storeDocument_duplicate_guard
    (s : ContractState) (hash meta : String) (owner sender time : Nat)
    (h64 : hash.utf8ByteSize = 64) :
    ((s.documents hash).documentHash ≠ "" →
      storeDocument s hash meta owner sender time = .error .documentAlreadyExists ∧
      storeDocumentRun s hash meta owner sender time = s) ∧
    ((s.documents hash).documentHash = "" → owner ≠ 0 →
      exceptIsOk (storeDocument s hash meta owner sender time) = true ∧
      ((storeDocumentRun s hash meta owner sender time).documents hash).documentHash
        = hash) := by
  constructor
  · intro hex
    have hdup := storeDocument_eq_dup s hash meta owner sender time h64 hex
    refine ⟨hdup, ?_⟩
    simp [storeDocumentRun, hdup]
  · intro hfresh hown
    have hok := storeDocument_eq_ok s hash meta owner sender time h64 hfresh hown
    refine ⟨by simp [hok, exceptIsOk], ?_⟩
    simp [storeDocumentRun, hok]

/-- Witness for C1: on a ledger already holding `lowerHash`, a second
create is rejected as a duplicate and changes nothing, while the first
create (on the empty ledger) succeeded. -/
theorem storeDocument_duplicate_guard_witness :
    (((storeDocumentRun emptyContract lowerHash "m" 5 2 3).documents lowerHash).documentHash ≠ "" →
      storeDocument (storeDocumentRun emptyContract lowerHash "m" 5 2 3) lowerHash "n" 7 8 9 =
        .error .documentAlreadyExists ∧
      storeDocumentRun (storeDocumentRun emptyContract lowerHash "m" 5 2 3) lowerHash "n" 7 8 9 =
        storeDocumentRun emptyContract lowerHash "m" 5 2 3) ∧
    (((storeDocumentRun emptyContract lowerHash "m" 5 2 3).documents lowerHash).documentHash = "" →
      (7 : Nat) ≠ 0 →
      exceptIsOk (storeDocument (storeDocumentRun emptyContract lowerHash "m" 5 2 3) lowerHash "n" 7 8 9) = true ∧
      ((storeDocumentRun (storeDocumentRun emptyContract lowerHash "m" 5 2 3) lowerHash "n" 7 8 9).documents lowerHash).documentHash = lowerHash) :=
  storeDocument_duplicate_guard
    (storeDocumentRun emptyContract lowerHash "m" 5 2 3) lowerHash "n" 7 8 9 (by decide)

/-- C8 (amended): for a fresh, valid fingerprint, `storeDocument`
succeeds and a subsequent read of `documents[hash]` returns the full
stored record, with `isActive = true`.  (The record carries no version
counter — see the counterexample `stored_record_has_no_version_field`.) -/
theorem create_then_get_active
    (s : ContractState) (hash meta : String) (owner sender time : Nat)
    (h64 : hash.utf8ByteSize = 64)
    (hfresh : (s.documents hash).documentHash = "")
    (hown : owner ≠ 0) :
    exceptIsOk (storeDocument s hash meta owner sender time) = true ∧
    (storeDocumentRun s hash meta owner sender time).documents hash =
      { documentHash := hash, metadata := meta, owner := owner,
        issuer := sender, timestamp := time, isActive := true } ∧
    ((storeDocumentRun s hash meta owner sender time).documents hash).isActive
      = true := by
  have hok := storeDocument_eq_ok s hash meta owner sender time h64 hfresh hown
  refine ⟨by simp [hok, exceptIsOk], ?_, ?_⟩ <;> simp [storeDocumentRun, hok]

/-- Witness for C8: creating `lowerHash` on the empty ledger and reading
it back gives the stored record, active. -/
theorem create_then_get_active_witness :
    exceptIsOk (storeDocument emptyContract lowerHash "m" 5 2 3) = true ∧
    (storeDocumentRun emptyContract lowerHash "m" 5 2 3).documents lowerHash =
      { documentHash := lowerHash, metadata := "m", owner := 5,
        issuer := 2, timestamp := 3, isActive := true } ∧
    ((storeDocumentRun emptyContract lowerHash "m" 5 2 3).documents lowerHash).isActive
      = true :=
  create_then_get_active emptyContract lowerHash "m" 5 2 3 (by decide) rfl (by decide)

/-- Counterexample for C8 as stated: the record created by
`storeDocument` (and returned by a subsequent read) has exactly the six
fields of the on-chain `Document` struct — none of them is a `version`
field, so the claim's "returns a record with … `version=0`" is false:
create-then-get yields an active record with no version counter at all. -/
theorem stored_record_has_no_version_field :
    exceptIsOk (storeDocument emptyContract lowerHash "m" 5 2 3) = true ∧
    ((storeDocumentRun emptyContract lowerHash "m" 5 2 3).documents lowerHash).isActive
      = true ∧
    "version" ∉ documentFieldNames := by
  decide

/-- C10: `isDocumentActive` returns `false` for a fingerprint with no
stored record (the mapping yields the default struct, whose `isActive`
is `false`) and also returns `false` for a revoked record, so this query
alone cannot distinguish the two situations. -/
theorem isDocumentActive_cannot_distinguish
    (s t : ContractState) (f g : String)
    (hmiss : s.documents f = defaultDocument)
    (hrev : (t.documents g).isActive = false) :
    isDocumentActive s f = false ∧ isDocumentActive t g = false ∧
    isDocumentActive s f = isDocumentActive t g := by
  simp [isDocumentActive, hmiss, hrev, defaultDocument]

/-- Witness for C10: the never-registered `lowerHash` on the empty
contract and the revoked `lowerHash` on a store-then-revoke contract
both report inactive. -/
theorem isDocumentActive_cannot_distinguish_witness :
    isDocumentActive emptyContract lowerHash = false ∧
    isDocumentActive
      (revokeDocumentRun (storeDocumentRun emptyContract lowerHash "m" 5 2 3) lowerHash 2 4)
      lowerHash = false ∧
    isDocumentActive emptyContract lowerHash =
      isDocumentActive
        (revokeDocumentRun (storeDocumentRun emptyContract lowerHash "m" 5 2 3) lowerHash 2 4)
        lowerHash :=
  isDocumentActive_cannot_distinguish _ _ _ _ rfl (by decide)

/-- Counterexample for C2: no lowercasing happens anywhere on the
registry path.  Registering the digest spelled in uppercase succeeds
(the contract only checks the length), yet looking up the lowercase
spelling of the same digest finds nothing, while the uppercase spelling
is found — the two spellings do not resolve to one record. -/
theorem store_uppercase_lookup_lowercase_misses :
    exceptIsOk (storeDocument emptyContract upperHash "m" 5 2 3) = true ∧
    (verifyDocument (storeDocumentRun emptyContract upperHash "m" 5 2 3) lowerHash).1
      = false ∧
    (verifyDocument (storeDocumentRun emptyContract upperHash "m" 5 2 3) upperHash).1
      = true := by
  decide

/-- C2 (amended): the fingerprint is used exactly as received as the
storage key — `storeDocument` never normalizes it.  A successful store
of `hash` creates the record under the key `hash` itself and leaves
every other key (in particular, any differently-cased spelling)
untouched; meanwhile the API-side format validation is case-insensitive,
accepting both spellings. -/
theorem storeDocument_exact_key
    (s : ContractState) (hash meta : String) (owner sender time : Nat)
    (h64 : hash.utf8ByteSize = 64)
    (hfresh : (s.documents hash).documentHash = "")
    (hown : owner ≠ 0) :
    ((storeDocumentRun s hash meta owner sender time).documents hash).documentHash
      = hash ∧
    (∀ g : String, g ≠ hash →
      (storeDocumentRun s hash meta owner sender time).documents g = s.documents g) ∧
    isValidHash upperHash = true ∧ isValidHash lowerHash = true := by
  have hok := storeDocument_eq_ok s hash meta owner sender time h64 hfresh hown
  refine ⟨?_, ?_, by decide, by decide⟩
  · simp [storeDocumentRun, hok]
  · intro g hg
    simp [storeDocumentRun, hok, hg]

/-- Witness for C2's amended theorem: storing the uppercase spelling on
the empty ledger keys the record by the uppercase string and leaves all
other keys (the lowercase spelling included) empty. -/
theorem storeDocument_exact_key_witness :
    ((storeDocumentRun emptyContract upperHash "m" 5 2 3).documents upperHash).documentHash
      = upperHash ∧
    (∀ g : String, g ≠ upperHash →
      (storeDocumentRun emptyContract upperHash "m" 5 2 3).documents g =
        emptyContract.documents g) ∧
    isValidHash upperHash = true ∧ isValidHash lowerHash = true :=
  storeDocument_exact_key emptyContract upperHash "m" 5 2 3 (by decide) rfl (by decide)

/-- Counterexample for C3: the on-chain `storeDocument` checks only the
byte length, not the characters.  A 64-character non-hex string fails
the API's format test but is happily stored by the contract — a record
is created for an input that is not 64 hex characters. -/
theorem storeDocument_accepts_nonhex64 :
    isValidHash zHash = false ∧
    exceptIsOk (storeDocument emptyContract zHash "m" 5 2 3) = true ∧
    ((storeDocumentRun emptyContract zHash "m" 5 2 3).documents zHash).documentHash
      = zHash := by
  decide

/-- C3 (amended): at the API layer, a creation request whose
`documentHash` fails the case-insensitive 64-hex test (the other
required fields being present) is rejected with
`"Invalid document hash format"` before any database access — the
database is unchanged and zero calls reach it; on the contract, only a
wrong byte length is rejected before any state change. -/
theorem invalid_format_rejected_before_db
    (db : MongoDb) (r : CreateReq)
    (hh : r.documentHash ≠ "") (ht : r.title ≠ "") (hi : r.issuer ≠ "")
    (hia : r.issuerAddress ≠ "") (ho : r.owner ≠ "") (hoa : r.ownerAddress ≠ "")
    (hbad : isValidHash r.documentHash = false)
    (s : ContractState) (hash2 meta : String) (owner sender time : Nat)
    (hlen : hash2.utf8ByteSize ≠ 64) :
    postDocuments db r =
      { response := .error .invalidDocumentHashFormat, db := db, dbCalls := 0 } ∧
    storeDocument s hash2 meta owner sender time = .error .invalidHashLength ∧
    storeDocumentRun s hash2 meta owner sender time = s := by
  have hcond : ¬ (r.documentHash = "" ∨ r.title = "" ∨ r.issuer = "" ∨
      r.issuerAddress = "" ∨ r.owner = "" ∨ r.ownerAddress = "") := by
    push_neg
    exact ⟨hh, ht, hi, hia, ho, hoa⟩
  refine ⟨?_, ?_, ?_⟩
  · simp only [postDocuments, if_neg hcond, if_pos hbad]
  · simp only [storeDocument, if_pos hlen]
  · simp [storeDocumentRun, storeDocument, if_pos hlen]

/-- Witness for C3's amended theorem: a 3-character hash is rejected by
the API before any database call, and by the contract's length check. -/
theorem invalid_format_rejected_before_db_witness :
    postDocuments (fun _ => none)
        { documentHash := "abc", title := "t", issuer := "i",
          issuerAddress := "0xaa", owner := "o", ownerAddress := "0xbb" } =
      { response := .error .invalidDocumentHashFormat,
        db := fun _ => none, dbCalls := 0 } ∧
    storeDocument emptyContract "abc" "m" 5 2 3 = .error .invalidHashLength ∧
    storeDocumentRun emptyContract "abc" "m" 5 2 3 = emptyContract :=
  invalid_format_rejected_before_db (fun _ => none)
    { documentHash := "abc", title := "t", issuer := "i",
      issuerAddress := "0xaa", owner := "o", ownerAddress := "0xbb" }
    (by decide) (by decide) (by decide) (by decide) (by decide) (by decide)
    (by decide) emptyContract "abc" "m" 5 2 3 (by decide)

/-- Counterexample for C5: a transfer whose `newOwner` equals the
record's current owner does not fail — the contract never compares the
new owner with the current one, so the self-transfer succeeds. -/
theorem transfer_to_self_succeeds :
    getDocumentOwner baseState lowerHash = 5 ∧
    exceptIsOk (transferDocument baseState lowerHash 5 5 9) = true := by
  decide

/-- C5 (amended): `transferDocument` requires only that `newOwner` is
not the null address (`address(0)`) — passing `0` fails with
`"Invalid new owner address"` and reverts; it does not require
`newOwner` to differ from the current owner, so a transfer to the
current owner succeeds and leaves the owner unchanged. -/
theorem transfer_newOwner_check
    (s : ContractState) (hash : String) (sender time : Nat)
    (hex : (s.documents hash).documentHash ≠ "")
    (hsend : sender = (s.documents hash).owner)
    (hact : (s.documents hash).isActive = true)
    (hown0 : (s.documents hash).owner ≠ 0) :
    transferDocument s hash 0 sender time = .error .invalidNewOwnerAddress ∧
    transferDocumentRun s hash 0 sender time = s ∧
    exceptIsOk (transferDocument s hash (s.documents hash).owner sender time) = true ∧
    ((transferDocumentRun s hash (s.documents hash).owner sender time).documents hash).owner
      = (s.documents hash).owner := by
  have h1 : ¬ (s.documents hash).documentHash.utf8ByteSize = 0 :=
    fun h => hex ((utf8ByteSize_eq_zero_iff _).mp h)
  have h2 : ¬ sender ≠ (s.documents hash).owner := by simp [hsend]
  have hz : transferDocument s hash 0 sender time = .error .invalidNewOwnerAddress := by
    simp only [transferDocument, if_neg h1, if_neg h2]
    rfl
  have hok := transferDocument_eq_ok s hash (s.documents hash).owner sender time
    hex hsend hown0 hact
  refine ⟨hz, by simp [transferDocumentRun, hz], by simp [hok, exceptIsOk], ?_⟩
  simp [transferDocumentRun, hok]

/-- Witness for C5's amended theorem, on `baseState`: transferring to
the null address fails and reverts, transferring to the current owner
(address `5`) succeeds with the owner unchanged. -/
theorem transfer_newOwner_check_witness :
    transferDocument baseState lowerHash 0 5 9 = .error .invalidNewOwnerAddress ∧
    transferDocumentRun baseState lowerHash 0 5 9 = baseState ∧
    exceptIsOk
      (transferDocument baseState lowerHash ((baseState.documents lowerHash).owner) 5 9)
      = true ∧
    ((transferDocumentRun baseState lowerHash
        ((baseState.documents lowerHash).owner) 5 9).documents lowerHash).owner
      = (baseState.documents lowerHash).owner :=
  transfer_newOwner_check baseState lowerHash 5 9 (by decide) (by decide)
    (by decide) (by decide)

/-- Counterexample for C6: on a revoked record, a transfer attempted by
a non-owner fails with the `"Only owner can transfer"` error, not the
`"Cannot transfer revoked document"` (`InactiveRecord`) one — the
ownership check runs before the activity check. -/
theorem transfer_on_revoked_unauthorized_error :
    isDocumentActive revokedState lowerHash = false ∧
    exceptErr (transferDocument revokedState lowerHash 7 6 9)
      = some .onlyOwnerCanTransfer ∧
    SolError.onlyOwnerCanTransfer ≠ SolError.cannotTransferRevoked := by
  decide

/-- C6 (amended): every transfer attempt on an existing revoked record
fails and reverts, so the owner field never changes; the specific error
is `"Cannot transfer revoked document"` (the spec's `InactiveRecord`)
exactly when the caller is the current owner and the new owner is
non-null — otherwise the ownership or null-address check fails first. -/
theorem transfer_on_revoked_always_fails
    (s : ContractState) (hash : String) (newOwner sender time : Nat)
    (hex : (s.documents hash).documentHash ≠ "")
    (hrev : (s.documents hash).isActive = false) :
    (∃ e, transferDocument s hash newOwner sender time = .error e) ∧
    transferDocumentRun s hash newOwner sender time = s ∧
    getDocumentOwner (transferDocumentRun s hash newOwner sender time) hash =
      getDocumentOwner s hash ∧
    (sender = (s.documents hash).owner → newOwner ≠ 0 →
      transferDocument s hash newOwner sender time = .error .cannotTransferRevoked) := by
  have h1 : ¬ (s.documents hash).documentHash.utf8ByteSize = 0 :=
    fun h => hex ((utf8ByteSize_eq_zero_iff _).mp h)
  have herr : ∃ e, transferDocument s hash newOwner sender time = .error e := by
    by_cases hs : sender ≠ (s.documents hash).owner
    · exact ⟨.onlyOwnerCanTransfer, by simp only [transferDocument, if_neg h1, if_pos hs]⟩
    · by_cases hz : newOwner = 0
      · exact ⟨.invalidNewOwnerAddress, by
          simp only [transferDocument, if_neg h1, if_neg hs, if_pos hz]⟩
      · exact ⟨.cannotTransferRevoked, by
          simp only [transferDocument, if_neg h1, if_neg hs, if_neg hz, if_pos hrev]⟩
  obtain ⟨e, he⟩ := herr
  have hrun : transferDocumentRun s hash newOwner sender time = s := by
    simp [transferDocumentRun, he]
  refine ⟨⟨e, he⟩, hrun, by simp [hrun], ?_⟩
  intro hsend hz
  have hs : ¬ sender ≠ (s.documents hash).owner := by simp [hsend]
  simp only [transferDocument, if_neg h1, if_neg hs, if_neg hz, if_pos hrev]

/-- Witness for C6's amended theorem, on `revokedState` with the owner
(address `5`) attempting a transfer to address `7`. -/
theorem transfer_on_revoked_always_fails_witness :
    (∃ e, transferDocument revokedState lowerHash 7 5 9 = .error e) ∧
    transferDocumentRun revokedState lowerHash 7 5 9 = revokedState ∧
    getDocumentOwner (transferDocumentRun revokedState lowerHash 7 5 9) lowerHash =
      getDocumentOwner revokedState lowerHash ∧
    ((5 : Nat) = (revokedState.documents lowerHash).owner → (7 : Nat) ≠ 0 →
      transferDocument revokedState lowerHash 7 5 9 = .error .cannotTransferRevoked) :=
  transfer_on_revoked_always_fails revokedState lowerHash 7 5 9 (by decide) (by decide)

/-- Counterexample for C7: a self-transfer is a successful transfer
after which the by-owner index still associates the fingerprint with the
old owner (who is also the new owner) — "the index no longer associates
the hash with the old owner" fails for it. -/
theorem transfer_to_self_keeps_old_owner_association :
    exceptIsOk (transferDocument baseState lowerHash 5 5 9) = true ∧
    lowerHash ∈ getDocumentsByOwner (transferDocumentRun baseState lowerHash 5 5 9) 5 := by
  decide

/-- C7 (amended): for a transfer to a genuinely different owner, if the
old owner's index array contains the hash exactly once, then after the
successful transfer the new owner's array contains the hash, the old
owner's array no longer does, and the emitted `DocumentTransferred`
event carries both the old and the new owner. -/
theorem transfer_updates_owner_index
    (s : ContractState) (hash : String) (newOwner sender time : Nat)
    (pre post : List String)
    (hex : (s.documents hash).documentHash ≠ "")
    (hsend : sender = (s.documents hash).owner)
    (hnz : newOwner ≠ 0)
    (hact : (s.documents hash).isActive = true)
    (hdiff : newOwner ≠ (s.documents hash).owner)
    (hlist : s.ownerDocuments ((s.documents hash).owner) = pre ++ hash :: post)
    (hpre : hash ∉ pre) (hpost : hash ∉ post) :
    ∃ s', transferDocument s hash newOwner sender time =
        .ok (s', .documentTransferred hash ((s.documents hash).owner) newOwner time) ∧
      hash ∈ getDocumentsByOwner s' newOwner ∧
      hash ∉ getDocumentsByOwner s' ((s.documents hash).owner) := by
  have hok := transferDocument_eq_ok s hash newOwner sender time hex hsend hnz hact
  refine ⟨_, hok, ?_, ?_⟩
  · simp only [getDocumentsByOwner, if_neg hdiff, if_pos rfl]
    simp
  · have hown_ne : (s.documents hash).owner ≠ newOwner := fun e => hdiff e.symm
    simp only [getDocumentsByOwner, if_pos rfl, if_neg hown_ne, hlist]
    exact notMem_swapRemoveFirst hash pre post hpre hpost

/-- Witness for C7's amended theorem: transferring `lowerHash` from
address `5` to address `7` on `baseState`, whose owner index for `5` is
exactly `[lowerHash]`. -/
theorem transfer_updates_owner_index_witness :
    ∃ s', transferDocument baseState lowerHash 7 5 9 =
        .ok (s', .documentTransferred lowerHash ((baseState.documents lowerHash).owner) 7 9) ∧
      lowerHash ∈ getDocumentsByOwner s' 7 ∧
      lowerHash ∉ getDocumentsByOwner s' ((baseState.documents lowerHash).owner) :=
  transfer_updates_owner_index baseState lowerHash 7 5 9 [] [] (by decide) (by decide)
    (by decide) (by decide) (by decide) (by decide) (by decide) (by decide)

/-- C4: the verification endpoint answers three ways, for any
well-formed fingerprint.  Unregistered: `isValid = false` with the
not-found reason and no record.  Registered but revoked:
`isValid = false` with the revoked reason and the record still attached.
Registered and active: `isValid = true` with the full record (its
verification counter already bumped). -/
theorem verifyPost_three_way
    (db : MongoDb) (hash : String) (b : Bool)
    (hv : isValidHash hash = true) :
    (db hash = none →
      verifyPost db hash b =
        (.ok { isValid := false, errorMsg := some "Document not found in blockchain",
               document := none }, db)) ∧
    (∀ d, db hash = some d → d.isActive = false →
      verifyPost db hash b =
        (.ok { isValid := false, errorMsg := some "Document has been revoked",
               document := some (.revokedInfo d.title d.issuer) }, db)) ∧
    (∀ d, db hash = some d → d.isActive = true →
      (verifyPost db hash true).1 =
        .ok { isValid := true, errorMsg := none,
              document := some (.full { d with
                verificationCount := d.verificationCount + 1 }) }) := by
  have hne : ¬ hash = "" := by
    intro e
    rw [e] at hv
    exact absurd hv (by decide)
  have hvv : ¬ isValidHash hash = false := by simp [hv]
  refine ⟨?_, ?_, ?_⟩
  · intro h
    simp [verifyPost, hne, hvv, h]
  · intro d hd hact
    simp [verifyPost, hne, hvv, hd, hact]
  · intro d hd hact
    simp [verifyPost, hne, hvv, hd, hact]

/-- Witness for C4, on the one-document `sampleDb`: verifying the
stored active document reports valid with the (incremented) record. -/
theorem verifyPost_three_way_witness :
    (verifyPost sampleDb lowerHash true).1 =
      .ok { isValid := true, errorMsg := none,
            document := some (.full { sampleDoc with
              verificationCount := sampleDoc.verificationCount + 1 }) } :=
  (verifyPost_three_way sampleDb lowerHash true (by decide)).2.2 sampleDoc rfl rfl

/-- Counterexample for C9: on an active document, the verification
handler `await`s the counter increment with no guard, so a failing
`save()` reaches the `catch` and the caller gets a 500 instead of the
verification result — the counter failure does change the result. -/
theorem increment_failure_changes_result :
    (verifyPost sampleDb lowerHash false).1 = .serverError ∧
    (verifyPost sampleDb lowerHash true).1 ≠ .serverError ∧
    (verifyPost sampleDb lowerHash false).1 ≠ (verifyPost sampleDb lowerHash true).1 := by
  decide

/-- C9 (amended): for a registered active document, a failure of the
verification-counter save turns the response into a 500 server error,
different from the successful-path response; for an unregistered or
revoked fingerprint no increment is attempted, and the response is the
same whether the save would succeed or not. -/
theorem verifyPost_increment_failure_behavior
    (db : MongoDb) (hash : String)
    (hv : isValidHash hash = true) :
    (∀ d, db hash = some d → d.isActive = true →
      (verifyPost db hash false).1 = .serverError ∧
      (verifyPost db hash false).1 ≠ (verifyPost db hash true).1) ∧
    (db hash = none → verifyPost db hash false = verifyPost db hash true) ∧
    (∀ d, db hash = some d → d.isActive = false →
      verifyPost db hash false = verifyPost db hash true) := by
  have hne : ¬ hash = "" := by
    intro e
    rw [e] at hv
    exact absurd hv (by decide)
  have hvv : ¬ isValidHash hash = false := by simp [hv]
  refine ⟨?_, ?_, ?_⟩
  · intro d hd hact
    constructor
    · simp [verifyPost, hne, hvv, hd, hact]
    · simp [verifyPost, hne, hvv, hd, hact]
  · intro h
    simp [verifyPost, hne, hvv, h]
  · intro d hd hact
    simp [verifyPost, hne, hvv, hd, hact]

/-- Witness for C9's amended theorem, on `sampleDb` (active document)
and `revokedDb` (revoked document): only the active case is affected by
the save failure.  The revoked-case fact is obtained from the theorem
applied at `revokedDb`. -/
theorem verifyPost_increment_failure_behavior_witness :
    ((verifyPost sampleDb lowerHash false).1 = .serverError ∧
      (verifyPost sampleDb lowerHash false).1 ≠ (verifyPost sampleDb lowerHash true).1) ∧
    verifyPost revokedDb lowerHash false = verifyPost revokedDb lowerHash true :=
  ⟨(verifyPost_increment_failure_behavior sampleDb lowerHash (by decide)).1
      sampleDoc rfl rfl,
    (verifyPost_increment_failure_behavior revokedDb lowerHash (by decide)).2.2
      { sampleDoc with isActive := false } rfl rfl⟩
